import Mathlib

/-!
Verification development for the radiantearth python client.

The definitions below are shallow embeddings of the functions in
`radiantearth/api.py` and `radiantearth/models/project.py`:

* `fill_aoi` embeds `API.fill_aoi` (api.py, lines 427-461);
* `map_tokens` embeds the pagination loop of `API.map_tokens`
  (api.py, lines 103-124);
* `convert_date_isoformat` embeds `API.convert_date_isoformat`
  (api.py, lines 379-394) together with the relevant behaviour of
  CPython `datetime.strptime` and `datetime.isoformat`;
* `get_cloud_cover` and `get_timestamp` embed the datasource dispatch
  functions (api.py, lines 353-425);
* `get_scenes_validation` embeds the argument validation at the top of
  `API.get_scenes` (api.py, lines 287-290);
* `validateMask` embeds the mask-coordinate validation of
  `Project.create_export` (project.py, lines 244-254).

Python exceptions are modelled as explicit error values (`Except` or a
dedicated outcome constructor); raising is returning the error value.
-/

/-- Embeds the `datasource` sub-object of a scene: only its `id` field is
read by `fill_aoi`. -/
structure Datasource where
  id : String
deriving DecidableEq

/-- Embeds a scene object as consumed by `fill_aoi`: its `id`, its
`datasource` and its `dataFootprint`.  The footprint type `P` is abstract;
the source converts `scene.dataFootprint` to a shapely geometry via
`geometry.shape`, which we absorb into the footprint value itself. -/
structure Scene (P : Type) where
  id : String
  datasource : Datasource
  dataFootprint : P
deriving DecidableEq

/-- The possible outcomes of a call to `fill_aoi` in the source: a normal
return of the list `scene_ids` (a Python `list`), a normal return of a
Python `str` (the source returns the literal string
`"Insufficient imagery available."` on exhaustion), or a raised
`ValueError`. -/
inductive FillOutcome where
  | ids (l : List String)
  | str (s : String)
  | valueError (msg : String)
deriving DecidableEq

/-- The single-quote character, used to reproduce the exact Python error
message strings. -/
def apos : String := String.singleton (Char.ofNat 39)

/-- The literal string returned by `fill_aoi` when the scenes are
exhausted without covering the AOI (api.py line 461). -/
def insufficientMsg : String := "Insufficient imagery available."

/-- The `ValueError` message raised by `fill_aoi` on a datasource
mismatch (api.py lines 441-443), with the format placeholders filled
in. -/
def mismatchMsg (sceneDs expected : String) : String :=
  "Scene datasource type " ++ apos ++ sceneDs ++ apos ++ " doesn" ++ apos ++
    "t match specified datasource type " ++ apos ++ expected ++ apos ++ "."

/-- Embeds the loop body of `API.fill_aoi` (api.py lines 437-458).
`covers bounds aoi` abstracts the geometry-collaborator call
`cascaded_union(bounds).contains(aoi)` made at lines 454-456; the source
recomputes it from the whole accumulated boundary list on every
iteration.  `scene_boundaries` and `scene_ids` are the two accumulator
lists of the source. -/
def fillAoiGo {P : Type} (covers : List P → P → Bool) (datasource_id : String)
    (aoi_polygon : P) :
    List (Scene P) → List P → List String → FillOutcome
  | [], _, _ => .str insufficientMsg
  | scene :: rest, scene_boundaries, scene_ids =>
    if scene.datasource.id ≠ datasource_id then
      .valueError (mismatchMsg scene.datasource.id datasource_id)
    else
      let scene_boundaries2 := scene_boundaries ++ [scene.dataFootprint]
      let scene_ids2 := scene_ids ++ [scene.id]
      if covers scene_boundaries2 aoi_polygon then .ids scene_ids2
      else fillAoiGo covers datasource_id aoi_polygon rest scene_boundaries2 scene_ids2

/-- Embeds `API.fill_aoi` (api.py lines 427-461): both accumulators start
empty and the scenes of `results` are consumed in input order. -/
def fill_aoi {P : Type} (covers : List P → P → Bool) (results : List (Scene P))
    (aoi_polygon : P) (datasource_id : String) : FillOutcome :=
  fillAoiGo covers datasource_id aoi_polygon results [] []

/-- `firstCoverAux covers aoi acc fps` returns `some k` when `k` is the
least number (`1 ≤ k ≤ fps.length`) of leading elements of `fps` that,
appended to `acc`, satisfy `covers`; `none` when no such `k` exists.
This is the loop-index bookkeeping of `fill_aoi` separated from its
accumulators, used to state and prove its characterisation. -/
def firstCoverAux {P : Type} (covers : List P → P → Bool) (aoi : P) :
    List P → List P → Option Nat
  | _, [] => none
  | acc, p :: ps =>
    if covers (acc ++ [p]) aoi then some 1
    else (firstCoverAux covers aoi (acc ++ [p]) ps).map (fun k => k + 1)

/- ### Concrete grid-cell geometry

The source delegates `cascaded_union` and `contains` to shapely.  For the
concrete axis-aligned integer-coordinate rectangles used by the claims we
model a (multi)polygon as the list of closed unit grid cells it consists
of, a cell being named by its lower-left corner.  For such closed
rectilinear regions shapely semantics are: `A.contains(B)` holds iff `B`
is non-empty and every cell of `B` is a cell of `A` (shared boundary
points count as contained, and a non-empty `B` whose cells lie in `A`
always meets the interior of `A`). -/

/-- A closed unit grid cell, named by its lower-left corner. -/
abbrev GridCell := Int × Int

/-- The cells of the closed axis-aligned rectangle with corners
`(x0, y0)` and `(x1, y1)`. -/
def rectCells (x0 y0 x1 y1 : Int) : List GridCell :=
  ((List.range (x1 - x0).toNat).map (fun i =>
    (List.range (y1 - y0).toNat).map (fun j => ((x0 + i : Int), (y0 + j : Int))))).flatten

/-- The cells of the axis-aligned rectangle spanned by a coordinate ring,
as produced by `geometry.shape` on a rectangular `dataFootprint` ring. -/
def ringCells (ring : List (Int × Int)) : List GridCell :=
  match ring with
  | [] => []
  | (x, y) :: rest =>
    let xs := rest.map Prod.fst
    let ys := rest.map Prod.snd
    rectCells (xs.foldl min x) (ys.foldl min y) (xs.foldl max x) (ys.foldl max y)

/-- Shapely `A.contains(B)` for closed rectilinear cell regions: `B` is
non-empty and each cell of `B` lies in `A`. -/
def cellContains (a b : List GridCell) : Bool :=
  !b.isEmpty && b.all (fun c => a.contains c)

/-- The geometry-collaborator instance used by the concrete claims:
`cascaded_union(fps).contains(aoi)` on the cell model — the union is the
concatenation of the cell lists. -/
def cellCovers (fps : List (List GridCell)) (aoi : List GridCell) : Bool :=
  cellContains fps.flatten aoi

/-- Datasource id shared by the concrete quadrant scenes. -/
def quadDs : String := "datasource-q"

/-- First quadrant scene: footprint ring `[[0,0],[1,0],[1,1],[0,1]]`. -/
def quadrant1 : Scene (List GridCell) :=
  ⟨"scene-1", ⟨quadDs⟩, ringCells [(0, 0), (1, 0), (1, 1), (0, 1)]⟩

/-- Second quadrant scene: footprint ring `[[1,0],[2,0],[2,1],[1,1]]`. -/
def quadrant2 : Scene (List GridCell) :=
  ⟨"scene-2", ⟨quadDs⟩, ringCells [(1, 0), (2, 0), (2, 1), (1, 1)]⟩

/-- Third quadrant scene: footprint ring `[[0,1],[1,1],[1,2],[0,2]]`. -/
def quadrant3 : Scene (List GridCell) :=
  ⟨"scene-3", ⟨quadDs⟩, ringCells [(0, 1), (1, 1), (1, 2), (0, 2)]⟩

/-- Fourth quadrant scene: footprint ring `[[1,1],[2,1],[2,2],[1,2]]`. -/
def quadrant4 : Scene (List GridCell) :=
  ⟨"scene-4", ⟨quadDs⟩, ringCells [(1, 1), (2, 1), (2, 2), (1, 2)]⟩

/-- The AOI `geometry.box(0, 0, 2, 2)` in the cell model. -/
def aoiBox : List GridCell := rectCells 0 0 2 2

/-- A unit-square AOI, covered by `quadrant1` alone. -/
def aoiUnit : List GridCell := rectCells 0 0 1 1

/-- A scene whose datasource id differs from `quadDs`. -/
def otherScene : Scene (List GridCell) :=
  ⟨"scene-x", ⟨"datasource-x"⟩, ringCells [(5, 5), (6, 5), (6, 6), (5, 6)]⟩

/- ### Pagination (`API.map_tokens`, api.py lines 103-124) -/

/-- Embeds one page object as returned by
`self.client.Imagery.get_map_tokens(page=page).result()`: the `results`
list, the server-reported `page` index and the `hasNext` flag. -/
structure PaginatedResponse (β : Type) where
  results : List β
  page : Nat
  hasNext : Bool

/-- Embeds the `while has_next` loop of `API.map_tokens`.  `wrap` is the
per-item constructor application `MapToken(map_token, self)`; `fuel`
bounds the number of iterations (the Python loop has no bound; `none`
means the fuel ran out before the server reported `hasNext = false`).
The second component of the result counts the calls made to
`get_map_tokens`.  As in the source, after each fetch the items are
appended, the next index is taken from the server-returned
`paginated_map_tokens.page + 1`, and the loop continues iff the
server-returned `hasNext` is true. -/
def mapTokensGo {β γ : Type} (wrap : β → γ) (get_map_tokens : Nat → PaginatedResponse β) :
    Nat → Nat → List γ → Nat → Option (List γ × Nat)
  | 0, _, _, _ => none
  | fuel + 1, page, acc, calls =>
    let resp := get_map_tokens page
    let acc2 := acc ++ resp.results.map wrap
    if resp.hasNext then mapTokensGo wrap get_map_tokens fuel (resp.page + 1) acc2 (calls + 1)
    else some (acc2, calls + 1)

/-- Embeds `API.map_tokens`: `page` starts at `0`, the accumulator starts
empty, and no fetches have happened yet. -/
def map_tokens {β γ : Type} (wrap : β → γ) (get_map_tokens : Nat → PaginatedResponse β)
    (fuel : Nat) : Option (List γ × Nat) :=
  mapTokensGo wrap get_map_tokens fuel 0 [] 0

/-- An honest paged server over a fixed page list: page `i` returns the
`i`-th item list, reports index `i`, and reports `hasNext` exactly when a
further page exists — so `hasNext` is false only on the last page. -/
def pageServer {β : Type} (pages : List (List β)) (i : Nat) : PaginatedResponse β :=
  ⟨(pages[i]?).getD [], i, decide (i + 1 < pages.length)⟩

/-- A server whose returned page index differs from the requested one:
page 0 reports index 41, so a client advancing by the server-returned
index fetches page 42 next, while a client incrementing a local counter
would fetch page 1 and collect `999`. -/
def skewServer : Nat → PaginatedResponse Nat
  | 0 => ⟨[7], 41, true⟩
  | 42 => ⟨[8], 42, false⟩
  | i => ⟨[999], i, false⟩

/- ### Timestamp normalisation (`API.convert_date_isoformat`,
api.py lines 379-394) -/

/-- Gregorian leap-year rule, as used by `datetime`. -/
def isLeap (y : Nat) : Bool := (y % 4 == 0 && !(y % 100 == 0)) || y % 400 == 0

/-- Days in month `m` of year `y`. -/
def daysInMonth (y m : Nat) : Nat :=
  if m = 2 then (if isLeap y then 29 else 28)
  else if m = 4 ∨ m = 6 ∨ m = 9 ∨ m = 11 then 30 else 31

/-- Days in year `y`. -/
def daysInYear (y : Nat) : Nat := if isLeap y then 366 else 365

/-- Walks months to convert a day-of-year `j` (with `1 ≤ j ≤` days in
year) of year `y` into a `(month, day)` pair; the fuel is the number of
months still to try. -/
def monthDayOfOrdinalGo (y : Nat) : Nat → Nat → Nat → Nat × Nat
  | 0, m, j => (m, j)
  | fuel + 1, m, j =>
    if j ≤ daysInMonth y m then (m, j)
    else monthDayOfOrdinalGo y fuel (m + 1) (j - daysInMonth y m)

/-- Day-of-year to `(month, day)` in year `y`. -/
def monthDayOfOrdinal (y j : Nat) : Nat × Nat := monthDayOfOrdinalGo y 12 1 j

/-- Message of the `ValueError` raised by `datetime.strptime` when the
data does not match the format. -/
def strptimeErrMsg : String := "ValueError: time data does not match format"

/-- Message of the `ValueError` raised by the `datetime` constructor for
a day past the end of the month. -/
def dayRangeErrMsg : String := "ValueError: day is out of range for month"

/-- Message of the `UnboundLocalError` raised at line 392 of api.py when
neither length branch assigned `d`. -/
def unboundLocalMsg : String :=
  "UnboundLocalError: local variable " ++ apos ++ "d" ++ apos ++
    " referenced before assignment"

/-- Accumulating digit parser over a character list; `none` on the first
non-digit character. -/
def digitsVal : List Char → Nat → Option Nat
  | [], acc => some acc
  | c :: cs, acc =>
    if c.isDigit then digitsVal cs (acc * 10 + (c.toNat - 48)) else none

/-- `String.toNat?` over the character list of a string: at least one
character and all characters digits. -/
def charsToNat? : List Char → Option Nat
  | [] => none
  | c :: cs => digitsVal (c :: cs) 0

/-- Embeds `datetime.strptime(datestring, "%Y%j")` for a 7-character
input: 4 year digits then 3 day-of-year digits in `001`-`366`; as in
CPython, a day-of-year one past a non-leap year rolls into January 1 of
the following year.  Returns the `(year, month, day)` of the resulting
date or a raised `ValueError`. -/
def parseOrdinalDate (s : String) : Except String (Nat × Nat × Nat) :=
  match charsToNat? (s.data.take 4), charsToNat? (s.data.drop 4) with
  | some y, some j =>
    if 1 ≤ y ∧ 1 ≤ j ∧ j ≤ 366 then
      if j ≤ daysInYear y then
        let md := monthDayOfOrdinal y j
        .ok (y, md.1, md.2)
      else .ok (y + 1, 1, j - daysInYear y)
    else .error strptimeErrMsg
  | _, _ => .error strptimeErrMsg

/-- Embeds `datetime.strptime(datestring, "%Y-%m-%d")` for a
10-character input: `YYYY-MM-DD` with a valid month, and a day validated
against the month length by the `datetime` constructor. -/
def parseCalendarDate (s : String) : Except String (Nat × Nat × Nat) :=
  match charsToNat? (s.data.take 4), charsToNat? ((s.data.drop 5).take 2),
      charsToNat? (s.data.drop 8) with
  | some y, some m, some d =>
    if (s.data.drop 4).take 1 = ['-'] ∧ (s.data.drop 7).take 1 = ['-'] ∧
        1 ≤ y ∧ 1 ≤ m ∧ m ≤ 12 ∧ 1 ≤ d ∧ d ≤ 31 then
      if d ≤ daysInMonth y m then .ok (y, m, d)
      else .error dayRangeErrMsg
    else .error strptimeErrMsg
  | _, _, _ => .error strptimeErrMsg

/-- Zero-pads a number to two digits, as `datetime.isoformat` renders
months, days, hours, minutes and seconds. -/
def pad2 (n : Nat) : String := if n < 10 then "0" ++ toString n else toString n

/-- Zero-pads a year to four digits, as `datetime.isoformat` renders the
year. -/
def pad4 (n : Nat) : String :=
  if n < 10 then "000" ++ toString n
  else if n < 100 then "00" ++ toString n
  else if n < 1000 then "0" ++ toString n
  else toString n

/-- `datetime(y, m, d).isoformat()` for a midnight datetime (the time
fields produced by `strptime` with date-only formats are all zero). -/
def isoformatMidnight (y m d : Nat) : String :=
  pad4 y ++ "-" ++ pad2 m ++ "-" ++ pad2 d ++ "T00:00:00"

/-- Embeds `API.convert_date_isoformat` (api.py lines 379-394): a
7-character input is parsed as `%Y%j`, a 10-character input as
`%Y-%m-%d`, the result is `d.isoformat() + ".000Z"`; for any other
length the local `d` was never assigned and line 392 raises
`UnboundLocalError`. -/
def convert_date_isoformat (datestring : String) : Except String String :=
  if datestring.length = 7 then
    match parseOrdinalDate datestring with
    | .error e => .error e
    | .ok (y, m, d) => .ok (isoformatMidnight y m d ++ ".000Z")
  else if datestring.length = 10 then
    match parseCalendarDate datestring with
    | .error e => .error e
    | .ok (y, m, d) => .ok (isoformatMidnight y m d ++ ".000Z")
  else .error unboundLocalMsg

/- ### Datasource dispatch (`API.get_cloud_cover`, api.py lines 353-377,
and `API.get_timestamp`, api.py lines 396-425) -/

/-- A JSON metadata value: a number or a string. -/
inductive JsonVal where
  | num (q : Rat)
  | str (s : String)
deriving DecidableEq

/-- A scene as read by the dispatch helpers, after the
object-versus-dict normalisation at the top of each function: the
datasource id, the `sceneMetadata` dictionary and the raw `name`
string. -/
structure SceneRecord where
  id : String
  datasourceId : String
  sceneMetadata : String → Option JsonVal
  name : String

/-- Landsat 8 datasource id (api.py line 368). -/
def l8Id : String := "697a0b91-b7a8-446e-842c-97cda155554d"

/-- Sentinel-2 datasource id (api.py line 373). -/
def s2Id : String := "4a50cb75-815d-4fe5-8bc1-144729ce5b42"

/-- MODIS/Terra datasource id (api.py line 417). -/
def modisTerraId : String := "a11b768b-d869-476e-a1ed-0ac3205ed761"

/-- MODIS/Aqua datasource id (api.py line 421). -/
def modisAquaId : String := "55735945-9da5-47c3-8ae4-572b5e11205b"

/-- `KeyError` raised by a failed dictionary lookup. -/
def keyErrorMsg (k : String) : String := "KeyError: " ++ k

/-- `TypeError` raised by `len()` applied to a non-string. -/
def typeErrorLenMsg : String := "TypeError: object has no len()"

/-- `IndexError` raised by an out-of-range list index. -/
def indexErrorMsg : String := "IndexError: list index out of range"

/-- Embeds `API.get_cloud_cover` (api.py lines 353-377): `cloudCover`
starts as `None`, the Landsat 8 branch reads
`sceneMetadata["cloudCover"]`, the Sentinel-2 branch reads
`sceneMetadata["cloudyPixelPercentage"]`, and every other datasource id
falls through and returns the initial `None`. -/
def get_cloud_cover (scene : SceneRecord) : Except String (Option JsonVal) :=
  if scene.datasourceId = l8Id then
    match scene.sceneMetadata "cloudCover" with
    | some v => .ok (some v)
    | none => .error (keyErrorMsg "cloudCover")
  else if scene.datasourceId = s2Id then
    match scene.sceneMetadata "cloudyPixelPercentage" with
    | some v => .ok (some v)
    | none => .error (keyErrorMsg "cloudyPixelPercentage")
  else .ok none

/-- Splits a character list on a separator character, as Python
`str.split` with a single-character separator. -/
def splitOnChar (sep : Char) : List Char → List (List Char)
  | [] => [[]]
  | c :: cs =>
    let r := splitOnChar sep cs
    if c = sep then [] :: r
    else
      match r with
      | [] => [[c]]
      | h :: t => (c :: h) :: t

/-- `scene["name"].split(".")[1][1:]` — the julian date part of a MODIS
scene name (api.py lines 418 and 422). -/
def modisDatePart (name : String) : Except String String :=
  match (splitOnChar (Char.ofNat 46) name.data).get? 1 with
  | none => .error indexErrorMsg
  | some part => .ok (String.mk (part.drop 1))

/-- Embeds `API.get_timestamp` (api.py lines 396-425): `timestamp`
starts as `None`; the Landsat 8 branch reads
`sceneMetadata["acquisitionDate"]` and normalises it with
`convert_date_isoformat`; the Sentinel-2 branch returns
`sceneMetadata["timeStamp"]` unchanged; the two MODIS branches derive a
julian date string from the scene name and normalise it; every other
datasource id falls through and returns the initial `None`. -/
def get_timestamp (scene : SceneRecord) : Except String (Option JsonVal) :=
  if scene.datasourceId = l8Id then
    match scene.sceneMetadata "acquisitionDate" with
    | none => .error (keyErrorMsg "acquisitionDate")
    | some (JsonVal.num _) => .error typeErrorLenMsg
    | some (JsonVal.str s) =>
      match convert_date_isoformat s with
      | .error e => .error e
      | .ok r => .ok (some (JsonVal.str r))
  else if scene.datasourceId = s2Id then
    match scene.sceneMetadata "timeStamp" with
    | none => .error (keyErrorMsg "timeStamp")
    | some v => .ok (some v)
  else if scene.datasourceId = modisTerraId then
    match modisDatePart scene.name with
    | .error e => .error e
    | .ok ds =>
      match convert_date_isoformat ds with
      | .error e => .error e
      | .ok r => .ok (some (JsonVal.str r))
  else if scene.datasourceId = modisAquaId then
    match modisDatePart scene.name with
    | .error e => .error e
    | .ok ds =>
      match convert_date_isoformat ds with
      | .error e => .error e
      | .ok r => .ok (some (JsonVal.str r))
  else .ok none

/- ### Scene-fetch argument validation (`API.get_scenes`,
api.py lines 287-290) -/

/-- Python truthiness of an optional string argument: `None` and the
empty string are falsy. -/
def truthyStr : Option String → Bool
  | none => false
  | some s => !(s == "")

/-- Outcome of the validation prologue of a call. -/
inductive ValidationOutcome where
  | raisesValueError (msg : String)
  | passes
deriving DecidableEq

/-- Embeds the two guards at the top of `API.get_scenes` (api.py lines
287-290): `if not shape_id and not bbox: raise ValueError(...)` then
`if (shape_id and bbox): raise ValueError(...)`; when neither guard
fires the function proceeds to build the request parameters. -/
def get_scenes_validation (shape_id bbox : Option String) : ValidationOutcome :=
  if !truthyStr shape_id && !truthyStr bbox then
    .raisesValueError "Must pass platform shape_id or bbox."
  else if truthyStr shape_id && truthyStr bbox then
    .raisesValueError "Can not pass both a shape_id and a bbox."
  else .passes

/- ### Export-mask validation (`Project.create_export`,
project.py lines 244-254) -/

/-- A Python nested-list coordinate value: an atom (a number) or a
list. -/
inductive Coords where
  | atom
  | list (xs : List Coords)

/-- `ValueError` raised by Python `max()` on an empty sequence. -/
def maxEmptyMsg : String := "ValueError: max() arg is an empty sequence"

mutual
/-- Embeds the `depth` lambda of `Project.create_export`:
`depth = lambda L: isinstance(L, list) and max(map(depth, L)) + 1`.
A non-list yields `False`, which the enclosing `==`/`!=` comparisons
treat exactly like `0`, so we return `0`; `max` over an empty list
raises `ValueError`. -/
def pyDepth : Coords → Except String Nat
  | .atom => .ok 0
  | .list xs =>
    match pyDepthList xs with
    | .error e => .error e
    | .ok [] => .error maxEmptyMsg
    | .ok (d :: dr) => .ok (dr.foldl max d + 1)

/-- The depths of the elements of a list, with the first raised error
propagated. -/
def pyDepthList : List Coords → Except String (List Nat)
  | [] => .ok []
  | c :: cs =>
    match pyDepth c with
    | .error e => .error e
    | .ok d =>
      match pyDepthList cs with
      | .error e => .error e
      | .ok dr => .ok (d :: dr)
end

/-- Outcome of the mask-coordinate validation in
`Project.create_export`: either the coordinates (possibly wrapped) are
accepted and the export request body is built from them, or a
`ValueError` is raised before any request is issued. -/
inductive MaskOutcome where
  | accepted (coords : Coords)
  | raisesValueError (msg : String)

/-- The `ValueError` message at project.py line 254 (sic). -/
def dimMsg : String := "Coordinates do have correct dimmension"

/-- Embeds the mask validation of `Project.create_export` (project.py
lines 244-254), i.e. the branch taken when `coordinates` is truthy:
compute the depth, wrap once when it is 3, then require the (re-computed)
depth to be exactly 4; otherwise raise before building the export
request. -/
def validateMask (coordinates : Coords) : MaskOutcome :=
  match pyDepth coordinates with
  | .error e => .raisesValueError e
  | .ok d =>
    let coordinates2 := if d = 3 then Coords.list [coordinates] else coordinates
    match pyDepth coordinates2 with
    | .error e => .raisesValueError e
    | .ok d2 =>
      if d2 ≠ 4 then .raisesValueError dimMsg
      else .accepted coordinates2

/-- A scene whose datasource id is outside the known four sensor ids. -/
def unknownScene : SceneRecord :=
  ⟨"scene-u", "datasource-unknown", fun _ => none, "SOMENAME.A2016123.h08v05"⟩

/-- A depth-3 coordinate value: one polygon, one ring of two coordinate
pairs. -/
def poly3 : Coords :=
  Coords.list [Coords.list [Coords.list [Coords.atom, Coords.atom],
    Coords.list [Coords.atom, Coords.atom]]]

/- ### Helper lemmas about `fill_aoi` -/

/-- When every scene matches the expected datasource id, `fillAoiGo` is
determined by `firstCoverAux`: it returns the ids of the scenes consumed
up to the first prefix whose accumulated boundaries cover the AOI, and
the insufficient-imagery string when no prefix does. -/
theorem fillAoiGo_characterization {P : Type} (covers : List P → P → Bool)
    (datasource_id : String) (aoi : P) :
    ∀ (scenes : List (Scene P)) (accB : List P) (accI : List String),
      (∀ s ∈ scenes, s.datasource.id = datasource_id) →
      fillAoiGo covers datasource_id aoi scenes accB accI =
        match firstCoverAux covers aoi accB (scenes.map Scene.dataFootprint) with
        | some k => FillOutcome.ids (accI ++ (scenes.map Scene.id).take k)
        | none => FillOutcome.str insufficientMsg := by
  intro scenes
  induction scenes with
  | nil => intro accB accI _; rfl
  | cons s rest ih =>
    intro accB accI h
    have hs : s.datasource.id = datasource_id := h s (List.mem_cons_self _ _)
    have hrest : ∀ x ∈ rest, x.datasource.id = datasource_id :=
      fun x hx => h x (List.mem_cons_of_mem _ hx)
    by_cases hc : covers (accB ++ [s.dataFootprint]) aoi
    · simp [fillAoiGo, firstCoverAux, hs, hc]
    · simp only [fillAoiGo, firstCoverAux, List.map_cons]
      rw [if_neg (by simp [hs]), if_neg (by simp [hc]), if_neg (by simp [hc])]
      rw [ih (accB ++ [s.dataFootprint]) (accI ++ [s.id]) hrest]
      cases hfc : firstCoverAux covers aoi (accB ++ [s.dataFootprint])
          (rest.map Scene.dataFootprint) with
      | none => simp
      | some k => simp [List.take_succ_cons]

/-- `firstCoverAux` finds a prescribed index: if the first `k` elements
(appended to the accumulator) satisfy `covers` and no shorter non-empty
prefix does, then `firstCoverAux` returns `some k`. -/
theorem firstCoverAux_eq_some {P : Type} (covers : List P → P → Bool) (aoi : P) :
    ∀ (fps acc : List P) (k : Nat), 1 ≤ k → k ≤ fps.length →
      covers (acc ++ fps.take k) aoi = true →
      (∀ j, 1 ≤ j → j < k → covers (acc ++ fps.take j) aoi = false) →
      firstCoverAux covers aoi acc fps = some k := by
  intro fps
  induction fps with
  | nil =>
    intro acc k hk1 hkn _ _
    simp at hkn
    omega
  | cons p ps ih =>
    intro acc k hk1 hkn hcov hmin
    match k, hk1 with
    | 1, _ =>
      simp only [List.take_succ_cons, List.take_zero] at hcov
      simp [firstCoverAux, hcov]
    | (k' + 2), _ =>
      have h1 : covers (acc ++ [p]) aoi = false := by
        have := hmin 1 (by omega) (by omega)
        simpa using this
      have hrec : firstCoverAux covers aoi (acc ++ [p]) ps = some (k' + 1) := by
        apply ih (acc ++ [p]) (k' + 1) (by omega) (by simpa using hkn)
        · have h2 := hcov
          simp only [List.take_succ_cons] at h2
          simpa [List.append_assoc] using h2
        · intro j hj1 hj2
          have h3 := hmin (j + 1) (by omega) (by omega)
          simp only [List.take_succ_cons] at h3
          simpa [List.append_assoc] using h3
      simp [firstCoverAux, h1, hrec]

/-- `firstCoverAux` returns `none` when no non-empty prefix (appended to
the accumulator) satisfies `covers`. -/
theorem firstCoverAux_eq_none {P : Type} (covers : List P → P → Bool) (aoi : P) :
    ∀ (fps acc : List P),
      (∀ j, 1 ≤ j → j ≤ fps.length → covers (acc ++ fps.take j) aoi = false) →
      firstCoverAux covers aoi acc fps = none := by
  intro fps
  induction fps with
  | nil => intro acc _; rfl
  | cons p ps ih =>
    intro acc hmin
    have h1 : covers (acc ++ [p]) aoi = false := by
      have := hmin 1 (by omega) (by simp)
      simpa using this
    have hrec : firstCoverAux covers aoi (acc ++ [p]) ps = none := by
      apply ih (acc ++ [p])
      intro j hj1 hj2
      have h3 := hmin (j + 1) (by omega) (by simpa using hj2)
      simp only [List.take_succ_cons] at h3
      simpa [List.append_assoc] using h3
    simp [firstCoverAux, h1, hrec]

/-- A successful `firstCoverAux` index is between `1` and the length of
the footprint list. -/
theorem firstCoverAux_bounds {P : Type} (covers : List P → P → Bool) (aoi : P) :
    ∀ (fps acc : List P) (k : Nat),
      firstCoverAux covers aoi acc fps = some k → 1 ≤ k ∧ k ≤ fps.length := by
  intro fps
  induction fps with
  | nil => intro acc k h; simp [firstCoverAux] at h
  | cons p ps ih =>
    intro acc k h
    by_cases hc : covers (acc ++ [p]) aoi
    · simp [firstCoverAux, hc] at h
      simp only [List.length_cons]
      omega
    · simp only [firstCoverAux, if_neg (by simp [hc] : ¬ (covers (acc ++ [p]) aoi = true))] at h
      cases hfc : firstCoverAux covers aoi (acc ++ [p]) ps with
      | none => rw [hfc] at h; simp at h
      | some m =>
        rw [hfc] at h
        simp at h
        have := ih (acc ++ [p]) m hfc
        simp only [List.length_cons]
        omega

/-- If every scene before the first mismatching scene carries the
expected datasource id and none of their boundary prefixes covers the
AOI, `fillAoiGo` reaches the mismatching scene and raises, whatever its
footprint and whatever follows it. -/
theorem fillAoiGo_mismatch {P : Type} (covers : List P → P → Bool)
    (datasource_id : String) (aoi : P) :
    ∀ (pre : List (Scene P)) (accB : List P) (accI : List String),
      (∀ s ∈ pre, s.datasource.id = datasource_id) →
      (∀ j, 1 ≤ j → j ≤ pre.length →
        covers (accB ++ (pre.map Scene.dataFootprint).take j) aoi = false) →
      ∀ (bad : Scene P) (post : List (Scene P)),
        bad.datasource.id ≠ datasource_id →
        fillAoiGo covers datasource_id aoi (pre ++ bad :: post) accB accI =
          FillOutcome.valueError (mismatchMsg bad.datasource.id datasource_id) := by
  intro pre
  induction pre with
  | nil =>
    intro accB accI _ _ bad post hbad
    simp [fillAoiGo, hbad]
  | cons s rest ih =>
    intro accB accI hmatch hmin bad post hbad
    have hs : s.datasource.id = datasource_id := hmatch s (List.mem_cons_self _ _)
    have hrest : ∀ x ∈ rest, x.datasource.id = datasource_id :=
      fun x hx => hmatch x (List.mem_cons_of_mem _ hx)
    have h1 : covers (accB ++ [s.dataFootprint]) aoi = false := by
      have := hmin 1 (by omega) (by simp)
      simpa using this
    simp only [List.cons_append, fillAoiGo]
    rw [if_neg (by simp [hs]), if_neg (by simp [h1])]
    apply ih (accB ++ [s.dataFootprint]) (accI ++ [s.id]) hrest _ bad post hbad
    intro j hj1 hj2
    have h3 := hmin (j + 1) (by omega) (by simpa using hj2)
    simp only [List.map_cons, List.take_succ_cons] at h3
    simpa [List.append_assoc] using h3

/- ### Claim theorems about `fill_aoi` -/

/-- Claim C1: for every input sequence of scenes all carrying the
expected datasource id and every AOI polygon, `fill_aoi` processes
scenes in input order without sorting, recomputes the union of all
footprints seen so far after each scene and, as soon as that union
contains the AOI (`k` below is the first prefix length at which the
accumulated union covers the AOI), stops and returns the accumulated
scene ids in consumption order — the ids of the first `k` input scenes,
first input scene first. -/
theorem fill_aoi_stops_at_first_containment {P : Type} (covers : List P → P → Bool)
    (scenes : List (Scene P)) (aoi : P) (datasource_id : String) (k : Nat)
    (hmatch : ∀ s ∈ scenes, s.datasource.id = datasource_id)
    (hk1 : 1 ≤ k) (hkn : k ≤ scenes.length)
    (hcov : covers ((scenes.map Scene.dataFootprint).take k) aoi = true)
    (hmin : ∀ j, 1 ≤ j → j < k →
      covers ((scenes.map Scene.dataFootprint).take j) aoi = false) :
    fill_aoi covers scenes aoi datasource_id =
      FillOutcome.ids ((scenes.take k).map Scene.id) := by
  unfold fill_aoi
  rw [fillAoiGo_characterization covers datasource_id aoi scenes [] [] hmatch]
  rw [firstCoverAux_eq_some covers aoi (scenes.map Scene.dataFootprint) [] k hk1
    (by simpa using hkn) (by simpa using hcov)
    (fun j h1 h2 => by simpa using hmin j h1 h2)]
  simp [List.map_take]

/-- Witness for C1: a single scene covering a unit-square AOI is
consumed and its id returned. -/
theorem fill_aoi_stops_at_first_containment_witness :
    fill_aoi cellCovers [quadrant1] aoiUnit quadDs = FillOutcome.ids ["scene-1"] := by
  have h := fill_aoi_stops_at_first_containment cellCovers [quadrant1] aoiUnit quadDs 1
    (by decide) (by decide) (by decide) (by decide)
    (by intro j h1 h2; omega)
  exact h

/-- Claim C2: when the scenes before a mismatching scene all match the
expected datasource id (and none of their boundary unions already covers
the AOI, so the loop reaches the mismatching scene), `fill_aoi` raises
the `ValueError` with the mismatch message.  The conclusion holds for
every footprint of the mismatching scene and every suffix after it, so
the failure happens before that footprint is appended and before any
union involving it is computed. -/
theorem fill_aoi_mismatch_raises {P : Type} (covers : List P → P → Bool)
    (pre : List (Scene P)) (bad : Scene P) (post : List (Scene P)) (aoi : P)
    (datasource_id : String)
    (hpre : ∀ s ∈ pre, s.datasource.id = datasource_id)
    (hbad : bad.datasource.id ≠ datasource_id)
    (hnostop : ∀ j, 1 ≤ j → j ≤ pre.length →
      covers ((pre.map Scene.dataFootprint).take j) aoi = false) :
    fill_aoi covers (pre ++ bad :: post) aoi datasource_id =
      FillOutcome.valueError (mismatchMsg bad.datasource.id datasource_id) := by
  unfold fill_aoi
  exact fillAoiGo_mismatch covers datasource_id aoi pre [] [] hpre
    (fun j h1 h2 => by simpa using hnostop j h1 h2) bad post hbad

/-- Witness for C2: a list whose first scene carries a different
datasource id raises at once. -/
theorem fill_aoi_mismatch_raises_witness :
    fill_aoi cellCovers [otherScene] aoiUnit quadDs =
      FillOutcome.valueError (mismatchMsg "datasource-x" quadDs) := by
  have h := fill_aoi_mismatch_raises cellCovers [] otherScene [] aoiUnit quadDs
    (by simp) (by decide)
    (by intro j h1 h2; simp only [List.length_nil] at h2; omega)
  exact h

/-- Counterexample for C3: at a concrete input that exhausts without
containment (one quadrant scene against the 2 by 2 AOI box), `fill_aoi`
returns the `FillOutcome.str` constructor — the embedding of a Python
`str` return value, here the literal `"Insufficient imagery available."`
— so the result is exactly a string sentinel the caller must
pattern-match, not a distinct non-string result variant. -/
theorem fill_aoi_insufficient_is_a_string :
    fill_aoi cellCovers [quadrant1] aoiBox quadDs
      = FillOutcome.str insufficientMsg := by decide

/-- Amended C3: when `fill_aoi` exhausts its input without the footprint
union ever containing the AOI, it returns the literal Python string
`"Insufficient imagery available."` — a string sentinel, not a distinct
result variant — which is nevertheless a different value from every
scene-id-list result. -/
theorem fill_aoi_exhaustion_string_sentinel {P : Type} (covers : List P → P → Bool)
    (scenes : List (Scene P)) (aoi : P) (datasource_id : String)
    (hmatch : ∀ s ∈ scenes, s.datasource.id = datasource_id)
    (hnone : ∀ j, 1 ≤ j → j ≤ scenes.length →
      covers ((scenes.map Scene.dataFootprint).take j) aoi = false) :
    fill_aoi covers scenes aoi datasource_id = FillOutcome.str insufficientMsg ∧
      ∀ l : List String, FillOutcome.str insufficientMsg ≠ FillOutcome.ids l := by
  constructor
  · unfold fill_aoi
    rw [fillAoiGo_characterization covers datasource_id aoi scenes [] [] hmatch]
    rw [firstCoverAux_eq_none covers aoi (scenes.map Scene.dataFootprint) []
      (fun j h1 h2 => by simpa using hnone j h1 (by simpa using h2))]
  · intro l h
    cases h

/-- Witness for the amended C3: one quadrant scene cannot cover the
2 by 2 AOI box, so the sentinel string is returned. -/
theorem fill_aoi_exhaustion_string_sentinel_witness :
    fill_aoi cellCovers [quadrant2] aoiBox quadDs = FillOutcome.str insufficientMsg ∧
      ∀ l : List String, FillOutcome.str insufficientMsg ≠ FillOutcome.ids l := by
  have h := fill_aoi_exhaustion_string_sentinel cellCovers [quadrant2] aoiBox quadDs
    (by decide)
    (by
      intro j h1 h2
      simp only [List.length_cons, List.length_nil] at h2
      have hj : j = 1 := by omega
      subst hj
      decide)
  exact h

/-- Claim C5: with the three quadrant footprints
`[[0,0],[1,0],[1,1],[0,1]]`, `[[1,0],[2,0],[2,1],[1,1]]`,
`[[0,1],[1,1],[1,2],[0,2]]` and the AOI box `[0,0,2,2]`, `fill_aoi`
never reaches containment and returns the insufficient-imagery result;
appending the fourth quadrant `[[1,1],[2,1],[2,2],[1,2]]` makes the
union contain the AOI (shared boundary points counting as contained), so
all four scene ids are returned in input order. -/
theorem fill_aoi_quadrants :
    fill_aoi cellCovers [quadrant1, quadrant2, quadrant3] aoiBox quadDs
        = FillOutcome.str insufficientMsg ∧
      fill_aoi cellCovers [quadrant1, quadrant2, quadrant3, quadrant4] aoiBox quadDs
        = FillOutcome.ids ["scene-1", "scene-2", "scene-3", "scene-4"] := by
  constructor
  · decide
  · decide

/-- Claim C10: whenever all scenes match the expected datasource id and
`fill_aoi` returns a scene-id list, that list is a non-empty prefix of
the input scene ids: some (possibly empty) tail of input ids completes
it to the full input id list, and its `i`-th element is the id of the
`i`-th input scene — nothing skipped, duplicated or reordered. -/
theorem fill_aoi_success_is_prefix {P : Type} (covers : List P → P → Bool)
    (scenes : List (Scene P)) (aoi : P) (datasource_id : String) (l : List String)
    (hmatch : ∀ s ∈ scenes, s.datasource.id = datasource_id)
    (hsucc : fill_aoi covers scenes aoi datasource_id = FillOutcome.ids l) :
    l ≠ [] ∧ (∃ t, scenes.map Scene.id = l ++ t) ∧
      l = (scenes.take l.length).map Scene.id := by
  unfold fill_aoi at hsucc
  rw [fillAoiGo_characterization covers datasource_id aoi scenes [] [] hmatch] at hsucc
  cases hfc : firstCoverAux covers aoi [] (scenes.map Scene.dataFootprint) with
  | none =>
    rw [hfc] at hsucc
    simp at hsucc
  | some k =>
    rw [hfc] at hsucc
    simp only [List.nil_append, FillOutcome.ids.injEq] at hsucc
    have hb := firstCoverAux_bounds covers aoi (scenes.map Scene.dataFootprint) [] k hfc
    have hlen : k ≤ scenes.length := by simpa using hb.2
    have hl : l = (scenes.map Scene.id).take k := hsucc.symm
    have hllen : l.length = k := by
      rw [hl, List.length_take, List.length_map]
      omega
    refine ⟨?_, ⟨(scenes.map Scene.id).drop k, ?_⟩, ?_⟩
    · intro hnil
      rw [hnil] at hllen
      simp only [List.length_nil] at hllen
      omega
    · rw [hl, List.take_append_drop]
    · rw [hllen, List.map_take]
      exact hl

/-- Witness for C10: a two-scene input whose first scene already covers
the AOI yields the singleton prefix of the input ids. -/
theorem fill_aoi_success_is_prefix_witness :
    (["scene-1"] : List String) ≠ [] ∧
      (∃ t, [quadrant1, quadrant2].map Scene.id = ["scene-1"] ++ t) ∧
      (["scene-1"] : List String) =
        ([quadrant1, quadrant2].take (["scene-1"] : List String).length).map Scene.id := by
  exact fill_aoi_success_is_prefix cellCovers [quadrant1, quadrant2] aoiUnit quadDs
    ["scene-1"] (by decide) (by decide)

/- ### Helper lemma about pagination -/

/-- One unfolding of the `map_tokens` loop body. -/
theorem mapTokensGo_succ {β γ : Type} (wrap : β → γ)
    (get_map_tokens : Nat → PaginatedResponse β) (fuel page : Nat)
    (acc : List γ) (calls : Nat) :
    mapTokensGo wrap get_map_tokens (fuel + 1) page acc calls =
      if (get_map_tokens page).hasNext then
        mapTokensGo wrap get_map_tokens fuel ((get_map_tokens page).page + 1)
          (acc ++ (get_map_tokens page).results.map wrap) (calls + 1)
      else some (acc ++ (get_map_tokens page).results.map wrap, calls + 1) := rfl

/-- Running the `map_tokens` loop against an honest server from page
index `pre.length` with `post.length` remaining pages collects exactly
the remaining items (wrapped) and makes exactly `post.length` further
fetches. -/
theorem mapTokensGo_pageServer {β γ : Type} (wrap : β → γ) :
    ∀ (post pre : List (List β)) (acc : List γ) (calls : Nat), post ≠ [] →
      mapTokensGo wrap (pageServer (pre ++ post)) post.length pre.length acc calls =
        some (acc ++ (post.flatten).map wrap, calls + post.length) := by
  intro post
  induction post with
  | nil => intro pre acc calls h; exact absurd rfl h
  | cons p rest ih =>
    intro pre acc calls _
    have hres : (pre ++ p :: rest)[pre.length]? = some p := by
      rw [List.getElem?_append_right (Nat.le_refl _)]
      simp
    have hserv : pageServer (pre ++ p :: rest) pre.length =
        ⟨p, pre.length, decide (pre.length + 1 < (pre ++ p :: rest).length)⟩ := by
      simp [pageServer, hres]
    cases rest with
    | nil =>
      have hstop : (decide (pre.length + 1 < (pre ++ [p]).length)) = false := by
        simp
      rw [show ([p] : List (List β)).length = 0 + 1 from rfl, mapTokensGo_succ, hserv]
      rw [hstop]
      simp
    | cons q rs =>
      have hnext : (decide (pre.length + 1 < (pre ++ p :: q :: rs).length)) = true := by
        simp only [decide_eq_true_eq, List.length_append, List.length_cons]
        omega
      rw [show (p :: q :: rs).length = (q :: rs).length + 1 from rfl, mapTokensGo_succ,
        hserv, hnext]
      rw [if_pos rfl]
      dsimp only [List.length_cons]
      have hre := ih (pre ++ [p]) (acc ++ p.map wrap) (calls + 1) (by simp)
      rw [List.append_assoc] at hre
      simp only [List.singleton_append, List.length_append, List.length_cons,
        List.length_nil] at hre
      rw [show pre.length + (0 + 1) = pre.length + 1 from rfl] at hre
      rw [hre]
      simp only [List.flatten_cons, List.map_append, List.append_assoc,
        Option.some.injEq, Prod.mk.injEq, List.length_cons]
      constructor
      · trivial
      · omega

/-- Claim C4: against any finite non-empty page sequence whose
`hasNext` is false only on the last page, the `map_tokens` loop returns
exactly the concatenation of all pages (wrapped) in server order and
makes exactly one fetch per page; moreover it advances using the
server-returned page index plus one — against `skewServer`, whose page 0
reports index 41, the second fetch goes to page 42, not to a locally
incremented index 1 — and a single page with zero items and
`hasNext = false` yields an empty result with exactly one fetch. -/
theorem map_tokens_pagination :
    (∀ (β γ : Type) (wrap : β → γ) (pages : List (List β)), pages ≠ [] →
        map_tokens wrap (pageServer pages) pages.length =
          some ((pages.flatten).map wrap, pages.length)) ∧
      map_tokens id skewServer 2 = some ([7, 8], 2) ∧
      map_tokens id (pageServer ([[]] : List (List Nat))) 1 = some ([], 1) := by
  refine ⟨?_, ?_, ?_⟩
  · intro β γ wrap pages hne
    have h := mapTokensGo_pageServer wrap pages [] [] 0 hne
    simpa using h
  · decide
  · decide

/-- Witness for C4: two pages of one and two items are concatenated in
order with exactly two fetches. -/
theorem map_tokens_pagination_witness :
    map_tokens id (pageServer [[1, 2], [3]]) 2 = some ([1, 2, 3], 2) := by
  have h := map_tokens_pagination.1 Nat Nat id [[1, 2], [3]] (by decide)
  simpa using h

/-- Claim C6: the timestamp normalisation maps the 7-character ordinal
string `"2016123"` and the 10-character calendar string `"2016-05-02"`
to canonical ISO-8601 timestamps ending in `".000Z"`; every successful
result ends in `".000Z"`; and every input whose length is neither 7 nor
10 fails loudly with a raised error instead of returning a truncated
value. -/
theorem convert_date_isoformat_normalisation :
    convert_date_isoformat "2016123" = Except.ok "2016-05-02T00:00:00.000Z" ∧
      convert_date_isoformat "2016-05-02" = Except.ok "2016-05-02T00:00:00.000Z" ∧
      (∀ s r, convert_date_isoformat s = Except.ok r →
        ∃ p, r = p ++ ".000Z") ∧
      (∀ s : String, s.length ≠ 7 → s.length ≠ 10 →
        convert_date_isoformat s = Except.error unboundLocalMsg) := by
  refine ⟨by rfl, by rfl, ?_, ?_⟩
  · intro s r h
    unfold convert_date_isoformat at h
    by_cases h7 : s.length = 7
    · rw [if_pos h7] at h
      cases hp : parseOrdinalDate s with
      | error e => rw [hp] at h; simp at h
      | ok ymd =>
        obtain ⟨y, m, d⟩ := ymd
        rw [hp] at h
        simp only [Except.ok.injEq] at h
        exact ⟨isoformatMidnight y m d, h.symm⟩
    · rw [if_neg h7] at h
      by_cases h10 : s.length = 10
      · rw [if_pos h10] at h
        cases hp : parseCalendarDate s with
        | error e => rw [hp] at h; simp at h
        | ok ymd =>
          obtain ⟨y, m, d⟩ := ymd
          rw [hp] at h
          simp only [Except.ok.injEq] at h
          exact ⟨isoformatMidnight y m d, h.symm⟩
      · rw [if_neg h10] at h
        simp at h
  · intro s h7 h10
    unfold convert_date_isoformat
    rw [if_neg h7, if_neg h10]

/-- Witness for C6: a length-5 input raises. -/
theorem convert_date_isoformat_normalisation_witness :
    convert_date_isoformat "word5" = Except.error unboundLocalMsg := by
  exact convert_date_isoformat_normalisation.2.2.2 "word5" (by decide) (by decide)

/-- Claim C7: for every scene whose datasource id lies outside the four
known sensor identifiers, both `get_cloud_cover` and `get_timestamp`
fall through every branch and return the initial `None` without raising
any exception. -/
theorem unknown_datasource_returns_none (scene : SceneRecord)
    (h1 : scene.datasourceId ≠ l8Id) (h2 : scene.datasourceId ≠ s2Id)
    (h3 : scene.datasourceId ≠ modisTerraId) (h4 : scene.datasourceId ≠ modisAquaId) :
    get_cloud_cover scene = Except.ok none ∧ get_timestamp scene = Except.ok none := by
  constructor
  · unfold get_cloud_cover
    rw [if_neg h1, if_neg h2]
  · unfold get_timestamp
    rw [if_neg h1, if_neg h2, if_neg h3, if_neg h4]

/-- Witness for C7: a concrete scene with an unknown datasource id. -/
theorem unknown_datasource_returns_none_witness :
    get_cloud_cover unknownScene = Except.ok none ∧
      get_timestamp unknownScene = Except.ok none := by
  exact unknown_datasource_returns_none unknownScene
    (by decide) (by decide) (by decide) (by decide)

/-- Claim C8: `get_scenes` enforces that exactly one of `shape_id` and
`bbox` is supplied: both missing raises a `ValueError`, both supplied
raises a `ValueError` as well (the same kind of validation error, with
its own message), and exactly one supplied passes the validation. -/
theorem get_scenes_exactly_one (shape_id bbox : Option String) :
    (truthyStr shape_id = false → truthyStr bbox = false →
        get_scenes_validation shape_id bbox =
          ValidationOutcome.raisesValueError "Must pass platform shape_id or bbox.") ∧
      (truthyStr shape_id = true → truthyStr bbox = true →
        get_scenes_validation shape_id bbox =
          ValidationOutcome.raisesValueError "Can not pass both a shape_id and a bbox.") ∧
      (truthyStr shape_id ≠ truthyStr bbox →
        get_scenes_validation shape_id bbox = ValidationOutcome.passes) := by
  unfold get_scenes_validation
  cases hs : truthyStr shape_id <;> cases hb : truthyStr bbox <;> simp

/-- Witness for C8: a supplied `shape_id` with a missing `bbox` passes
the validation. -/
theorem get_scenes_exactly_one_witness :
    get_scenes_validation (some "abc123") none = ValidationOutcome.passes := by
  exact (get_scenes_exactly_one (some "abc123") none).2.2 (by decide)

/-- Wrapping a coordinate value in one more list increments its Python
depth. -/
theorem pyDepth_wrap (c : Coords) (d : Nat) (h : pyDepth c = .ok d) :
    pyDepth (Coords.list [c]) = .ok (d + 1) := by
  simp [pyDepth, pyDepthList, h]

/-- Claim C9: for a mask coordinate value of computed depth `d`, a
depth-3 value is wrapped into a depth-4 MultiPolygon and accepted, a
depth-4 value is accepted unchanged, and any other depth makes
`create_export` raise its `ValueError` immediately — the `raisesValueError`
outcome, under which the export request body is never built. -/
theorem create_export_mask_validation (c : Coords) (d : Nat)
    (h : pyDepth c = Except.ok d) :
    (d = 3 → validateMask c = MaskOutcome.accepted (Coords.list [c]) ∧
        pyDepth (Coords.list [c]) = Except.ok 4) ∧
      (d = 4 → validateMask c = MaskOutcome.accepted c) ∧
      (d ≠ 3 → d ≠ 4 → validateMask c = MaskOutcome.raisesValueError dimMsg) := by
  refine ⟨?_, ?_, ?_⟩
  · intro hd3
    subst hd3
    have hw := pyDepth_wrap c 3 h
    refine ⟨?_, hw⟩
    unfold validateMask
    rw [h]
    simp [hw]
  · intro hd4
    subst hd4
    unfold validateMask
    rw [h]
    simp [h]
  · intro hd3 hd4
    unfold validateMask
    rw [h]
    simp [hd3, h, hd4]

/-- Witness for C9: a depth-3 polygon (one ring of two coordinate pairs)
is wrapped and accepted. -/
theorem create_export_mask_validation_witness :
    validateMask poly3 = MaskOutcome.accepted (Coords.list [poly3]) ∧
      pyDepth (Coords.list [poly3]) = Except.ok 4 := by
  exact (create_export_mask_validation poly3 3 (by rfl)).1 rfl
